import Mathlib

/-!
Verification of `src/dataloader/mamo_dataset.py` (class `MamoDataset`).

The embedding is shallow: a dataset is a structure holding the converted
input sequence and the optional converted output sequence; samples are kept
abstract (type parameter `α`).  Fallible Python code (`raise`) is embedded
as `Except MamoError`.  Torch integer indexing `t[index]` on the first
dimension is embedded by `tensorGet`, including Python/torch negative-index
wraparound and the `IndexError` raised outside `[-len, len)`.
-/

/-- The exception kinds the source can raise: `ValueError` (with the
source's message) from `__init__`, and `IndexError` propagated from torch
indexing in `__getitem__`. -/
inductive MamoError where
  | valueError (msg : String)
  | indexError
deriving DecidableEq, Repr

/-- Embeds `torch.from_numpy`: the conversion from the numpy array to the
torch tensor preserves the sequence of samples and their values exactly. -/
def torch_from_numpy (xs : List α) : List α := xs

/-- The state of a constructed `MamoDataset` object: the fields
`_input_data` and `_output_data` assigned in `__init__`. -/
structure MamoDataset (α : Type) where
  input_data : List α
  output_data : Option (List α)
deriving DecidableEq, Repr

deriving instance DecidableEq for Except

/-- Embeds `MamoDataset.__init__` (lines 30-56): `None` inputs are embedded
as `none`.  Raises `ValueError` if `input_data` is `None`; then converts the
input; then, if `output_data` is present, raises `ValueError` on a length
mismatch, else stores the converted output; a raise produces no object. -/
def MamoDataset.init (input_data : Option (List α)) (output_data : Option (List α)) :
    Except MamoError (MamoDataset α) :=
  match input_data with
  | none => .error (.valueError "The input data is None, please give a valid input data.")
  | some xs =>
    match output_data with
    | none => .ok ⟨torch_from_numpy xs, none⟩
    | some ys =>
      if xs.length ≠ ys.length then
        .error (.valueError
          "The length of the input data must match the length of the output data!")
      else .ok ⟨torch_from_numpy xs, some (torch_from_numpy ys)⟩

/-- Python/torch index resolution along a dimension of size `n`: a negative
index is shifted by `n` (wraparound), a nonnegative index is kept. -/
def pyResolve (n : Nat) (index : Int) : Int :=
  if index < 0 then index + (n : Int) else index

/-- Embeds torch integer indexing `t[index]` along the first dimension:
the index is resolved with negative-index wraparound; a resolved position
outside `[0, len)` raises `IndexError`. -/
def tensorGet (xs : List α) (index : Int) : Except MamoError α :=
  if 0 ≤ pyResolve xs.length index then
    match xs[(pyResolve xs.length index).toNat]? with
    | some x => .ok x
    | none => .error .indexError
  else .error .indexError

/-- Embeds `MamoDataset.__len__` (lines 58-63): the length of the stored
input tensor's first dimension. -/
def MamoDataset.len (d : MamoDataset α) : Nat := d.input_data.length

/-- Embeds `MamoDataset.__getitem__` (lines 65-86): first indexes the input
tensor (an `IndexError` there propagates), then returns `(x, x)` when no
output data is stored, else indexes the output tensor and returns `(x, y)`. -/
def MamoDataset.getitem (d : MamoDataset α) (index : Int) : Except MamoError (α × α) :=
  match tensorGet d.input_data index with
  | .error e => .error e
  | .ok x =>
    match d.output_data with
    | none => .ok (x, x)
    | some ys =>
      match tensorGet ys index with
      | .error e => .error e
      | .ok y => .ok (x, y)

/-- A method call on the object with explicit state passing: `__getitem__`
contains no assignment, so the post-call state is the receiver unchanged.
The pair is (returned value or raised error, object state after the call). -/
def MamoDataset.getitemCall (d : MamoDataset α) (index : Int) :
    Except MamoError (α × α) × MamoDataset α :=
  (d.getitem index, d)

/-- `__len__` as a method call with explicit state passing: it contains no
assignment, so the post-call state is the receiver unchanged. -/
def MamoDataset.lenCall (d : MamoDataset α) : Nat × MamoDataset α :=
  (d.len, d)

/-! ### Helper lemmas about `tensorGet` and `MamoDataset.init` -/

/-- A nonnegative index resolves to itself. -/
theorem pyResolve_ofNat (n : Nat) (i : Nat) : pyResolve n (i : Int) = (i : Int) := by
  unfold pyResolve
  rw [if_neg (by omega)]

/-- In-bounds nonnegative indexing returns the element at that position. -/
theorem tensorGet_nat (xs : List α) (i : Nat) (hi : i < xs.length) :
    tensorGet xs (i : Int) = .ok xs[i] := by
  unfold tensorGet
  rw [pyResolve_ofNat, if_pos (by omega)]
  have ht : ((i : Int)).toNat = i := by omega
  rw [ht, List.getElem?_eq_getElem hi]

/-- Indexing outside `[-len, len)` raises `IndexError`. -/
theorem tensorGet_oob (xs : List α) (i : Int)
    (h : i < -(xs.length : Int) ∨ (xs.length : Int) ≤ i) :
    tensorGet xs i = .error .indexError := by
  unfold tensorGet pyResolve
  rcases h with h | h
  · rw [if_pos (show i < 0 by omega), if_neg (by omega)]
  · rw [if_neg (show ¬ i < 0 by omega), if_pos (by omega),
      List.getElem?_eq_none (by omega)]

/-- A negative index in `[-len, -1]` wraps around to position `len + i`. -/
theorem tensorGet_neg (xs : List α) (i : Int)
    (hlo : -(xs.length : Int) ≤ i) (hhi : i < 0)
    (hb : (i + (xs.length : Int)).toNat < xs.length) :
    tensorGet xs i = .ok xs[(i + (xs.length : Int)).toNat] := by
  unfold tensorGet pyResolve
  rw [if_pos hhi, if_pos (by omega), List.getElem?_eq_getElem hb]

/-- Inversion of a successful construction without output data. -/
theorem init_none_inv (xs : List α) (d : MamoDataset α)
    (h : MamoDataset.init (some xs) none = .ok d) : d = ⟨xs, none⟩ := by
  unfold MamoDataset.init torch_from_numpy at h
  injection h with h2
  exact h2.symm

/-- Inversion of a successful construction with output data. -/
theorem init_some_inv (xs ys : List α) (d : MamoDataset α)
    (h : MamoDataset.init (some xs) (some ys) = .ok d) :
    d = ⟨xs, some ys⟩ ∧ ys.length = xs.length := by
  simp only [MamoDataset.init, torch_from_numpy] at h
  by_cases hlen : xs.length = ys.length
  · rw [if_neg (fun hc => hc hlen)] at h
    injection h with h2
    exact ⟨h2.symm, hlen.symm⟩
  · rw [if_pos hlen] at h
    exact absurd h (by simp)

/-! ### Claim theorems -/

/-- C1: for a table constructed from a non-absent input sequence of `N`
samples and no output sequence, `size()` returns `N` and, for every `i` in
`[0, N)`, `get(i)` returns the pair `(inputs[i], inputs[i])`. -/
theorem mamo_C1_autoencoder_pairing (α : Type) (xs : List α) (d : MamoDataset α)
    (hd : MamoDataset.init (some xs) none = .ok d) :
    MamoDataset.len d = xs.length ∧
    ∀ (i : Nat) (hi : i < xs.length),
      d.getitem (i : Int) = .ok (xs[i], xs[i]) := by
  obtain rfl := init_none_inv xs d hd
  refine ⟨rfl, fun i hi => ?_⟩
  unfold MamoDataset.getitem
  rw [tensorGet_nat xs i hi]

/-- Witness for C1 at `inputs = [5, 7]`. -/
theorem mamo_C1_witness :
    MamoDataset.init (some ([5, 7] : List Int)) none = .ok (MamoDataset.mk [5, 7] none) ∧
    (MamoDataset.len (MamoDataset.mk ([5, 7] : List Int) none) = ([5, 7] : List Int).length ∧
      ∀ (i : Nat) (hi : i < ([5, 7] : List Int).length),
        (MamoDataset.mk ([5, 7] : List Int) none).getitem (i : Int) =
          .ok (([5, 7] : List Int)[i], ([5, 7] : List Int)[i])) :=
  ⟨rfl, mamo_C1_autoencoder_pairing Int [5, 7] (MamoDataset.mk [5, 7] none) rfl⟩

/-- C2: for a table constructed from an input sequence of `N` samples and an
output sequence of `N` samples, `size()` returns `N` and, for every `i` in
`[0, N)`, `get(i)` returns the pair `(inputs[i], outputs[i])`. -/
theorem mamo_C2_paired_lookup (α : Type) (xs ys : List α) (d : MamoDataset α)
    (hd : MamoDataset.init (some xs) (some ys) = .ok d) :
    MamoDataset.len d = xs.length ∧
    ∀ (i : Nat) (hi : i < xs.length) (hy : i < ys.length),
      d.getitem (i : Int) = .ok (xs[i], ys[i]) := by
  obtain ⟨rfl, hlen⟩ := init_some_inv xs ys d hd
  refine ⟨rfl, fun i hi hy => ?_⟩
  simp only [MamoDataset.getitem, tensorGet_nat xs i hi, tensorGet_nat ys i hy]

/-- Witness for C2 at `inputs = [1, 2]`, `outputs = [8, 9]`. -/
theorem mamo_C2_witness :
    MamoDataset.init (some ([1, 2] : List Int)) (some [8, 9]) =
      .ok (MamoDataset.mk [1, 2] (some [8, 9])) ∧
    (MamoDataset.len (MamoDataset.mk ([1, 2] : List Int) (some [8, 9])) =
        ([1, 2] : List Int).length ∧
      ∀ (i : Nat) (hi : i < ([1, 2] : List Int).length) (hy : i < ([8, 9] : List Int).length),
        (MamoDataset.mk ([1, 2] : List Int) (some [8, 9])).getitem (i : Int) =
          .ok (([1, 2] : List Int)[i], ([8, 9] : List Int)[i])) :=
  ⟨rfl, mamo_C2_paired_lookup Int [1, 2] [8, 9] (MamoDataset.mk [1, 2] (some [8, 9])) rfl⟩

/-- C3 counterexample: on the table built from `inputs = [10, 20]`, the
negative index `-1` satisfies `index < 0` yet `get(-1)` does not raise: it
returns `(20, 20)` by negative-index wraparound, refuting the claim that
every `index < 0` raises `IndexOutOfRange`. -/
theorem mamo_C3_counterexample :
    MamoDataset.init (some ([10, 20] : List Int)) none = .ok (MamoDataset.mk [10, 20] none) ∧
    (-1 : Int) < 0 ∧
    (MamoDataset.mk ([10, 20] : List Int) none).getitem (-1) = .ok (20, 20) :=
  ⟨rfl, by decide, by decide⟩

/-- C3 amended: `get(index)` raises `IndexError` for every index with
`index < -size()` or `index >= size()`; indices in `[-size(), -1]` instead
resolve by wraparound (see C9). -/
theorem mamo_C3_amended_out_of_range (α : Type) (d : MamoDataset α) (i : Int)
    (h : i < -((MamoDataset.len d : Nat) : Int) ∨ ((MamoDataset.len d : Nat) : Int) ≤ i) :
    d.getitem i = .error .indexError := by
  unfold MamoDataset.getitem
  rw [tensorGet_oob d.input_data i h]

/-- Witness for the amended C3 at `inputs = [1, 2]`, `index = 5`. -/
theorem mamo_C3_witness :
    ((5 : Int) < -((MamoDataset.len (MamoDataset.mk ([1, 2] : List Int) none) : Nat) : Int) ∨
      ((MamoDataset.len (MamoDataset.mk ([1, 2] : List Int) none) : Nat) : Int) ≤ (5 : Int)) ∧
    (MamoDataset.mk ([1, 2] : List Int) none).getitem 5 = .error .indexError :=
  ⟨by decide, mamo_C3_amended_out_of_range Int (MamoDataset.mk [1, 2] none) 5 (by decide)⟩

/-- C4: constructing with outputs of a length different from the inputs
raises `ValueError`, and no table object is produced. -/
theorem mamo_C4_length_mismatch (α : Type) (xs ys : List α)
    (h : xs.length ≠ ys.length) :
    MamoDataset.init (some xs) (some ys) =
      .error (.valueError
        "The length of the input data must match the length of the output data!") := by
  simp only [MamoDataset.init, torch_from_numpy]
  rw [if_pos h]

/-- Witness for C4 at `inputs = [1, 2]`, `outputs = [3]`. -/
theorem mamo_C4_witness :
    ([1, 2] : List Int).length ≠ ([3] : List Int).length ∧
    MamoDataset.init (some ([1, 2] : List Int)) (some [3]) =
      .error (.valueError
        "The length of the input data must match the length of the output data!") :=
  ⟨by decide, mamo_C4_length_mismatch Int [1, 2] [3] (by decide)⟩

/-- C5: constructing with an absent (`None`) input sequence raises
`ValueError` regardless of the outputs argument, and no table object is
produced. -/
theorem mamo_C5_none_input (α : Type) (output_data : Option (List α)) :
    MamoDataset.init none output_data =
      .error (.valueError "The input data is None, please give a valid input data.") := rfl

/-- C6: lookup is pure and deterministic: a call leaves the table state
unchanged, and a second call with the same index on that state returns the
same result as the first, for every index (valid or not). -/
theorem mamo_C6_lookup_pure (α : Type) (d : MamoDataset α) (i : Int) :
    (d.getitemCall i).2 = d ∧
    ((d.getitemCall i).2.getitemCall i).1 = (d.getitemCall i).1 :=
  ⟨rfl, rfl⟩

/-- C7: a failed lookup leaves the table's state unchanged: after it, the
state is the original table, `size()` is unchanged, and every lookup returns
the same result as before the failed call. -/
theorem mamo_C7_failed_lookup_state (α : Type) (d : MamoDataset α) (i : Int) (e : MamoError)
    (hfail : (d.getitemCall i).1 = .error e) :
    (d.getitemCall i).2 = d ∧
    MamoDataset.len (d.getitemCall i).2 = MamoDataset.len d ∧
    ∀ j : Int, ((d.getitemCall i).2).getitem j = d.getitem j :=
  ⟨rfl, rfl, fun _ => rfl⟩

/-- Witness for C7: the failing lookup at index 5 on the table from `[1]`. -/
theorem mamo_C7_witness :
    ((MamoDataset.mk ([1] : List Int) none).getitemCall 5).1 = .error .indexError ∧
    (((MamoDataset.mk ([1] : List Int) none).getitemCall 5).2 = MamoDataset.mk [1] none ∧
      MamoDataset.len ((MamoDataset.mk ([1] : List Int) none).getitemCall 5).2 =
        MamoDataset.len (MamoDataset.mk ([1] : List Int) none) ∧
      ∀ j : Int, (((MamoDataset.mk ([1] : List Int) none).getitemCall 5).2).getitem j =
        (MamoDataset.mk ([1] : List Int) none).getitem j) :=
  ⟨by decide,
    mamo_C7_failed_lookup_state Int (MamoDataset.mk [1] none) 5 .indexError (by decide)⟩

/-- C8: for a successfully constructed table with outputs present, the
stored sequences are exactly the given ones, `len(outputs) == len(inputs)`
holds, and the operations `get` and `size` leave the state (hence the
invariant and the stored sequences) unchanged. -/
theorem mamo_C8_length_invariant (α : Type) (xs ys : List α) (d : MamoDataset α)
    (hd : MamoDataset.init (some xs) (some ys) = .ok d) :
    d.input_data = xs ∧ d.output_data = some ys ∧ ys.length = xs.length ∧
    (∀ i : Int, (d.getitemCall i).2 = d) ∧ d.lenCall.2 = d := by
  obtain ⟨rfl, hlen⟩ := init_some_inv xs ys d hd
  exact ⟨rfl, rfl, hlen, fun _ => rfl, rfl⟩

/-- Witness for C8 at `inputs = [1, 2]`, `outputs = [8, 9]`. -/
theorem mamo_C8_witness :
    MamoDataset.init (some ([1, 2] : List Int)) (some [8, 9]) =
      .ok (MamoDataset.mk [1, 2] (some [8, 9])) ∧
    ((MamoDataset.mk ([1, 2] : List Int) (some [8, 9])).input_data = [1, 2] ∧
      (MamoDataset.mk ([1, 2] : List Int) (some [8, 9])).output_data = some [8, 9] ∧
      ([8, 9] : List Int).length = ([1, 2] : List Int).length ∧
      (∀ i : Int, ((MamoDataset.mk ([1, 2] : List Int) (some [8, 9])).getitemCall i).2 =
        MamoDataset.mk [1, 2] (some [8, 9])) ∧
      (MamoDataset.mk ([1, 2] : List Int) (some [8, 9])).lenCall.2 =
        MamoDataset.mk [1, 2] (some [8, 9])) :=
  ⟨rfl, mamo_C8_length_invariant Int [1, 2] [8, 9] (MamoDataset.mk [1, 2] (some [8, 9])) rfl⟩

/-- C9: on a constructed table, every negative index in `[-N, -1]` does not
raise: it resolves by wraparound to position `N + i`, returning twice the
input sample there without outputs, or the input/output samples there with
outputs. -/
theorem mamo_C9_negative_wraparound (α : Type) (xs : List α) (out : Option (List α))
    (d : MamoDataset α) (hd : MamoDataset.init (some xs) out = .ok d)
    (i : Int) (hlo : -((MamoDataset.len d : Nat) : Int) ≤ i) (hhi : i ≤ -1) :
    ∃ x y, d.getitem i = .ok (x, y) ∧
      xs[(i + (xs.length : Int)).toNat]? = some x ∧
      (match out with
        | none => y = x
        | some ys => ys[(i + (xs.length : Int)).toNat]? = some y) := by
  cases out with
  | none =>
      obtain rfl := init_none_inv xs d hd
      have hlo2 : -((xs.length : Nat) : Int) ≤ i := hlo
      have hb : (i + (xs.length : Int)).toNat < xs.length := by omega
      refine ⟨xs[(i + (xs.length : Int)).toNat], xs[(i + (xs.length : Int)).toNat],
        ?_, List.getElem?_eq_getElem hb, rfl⟩
      simp only [MamoDataset.getitem, tensorGet_neg xs i hlo2 (by omega) hb]
  | some ys =>
      obtain ⟨rfl, hlen⟩ := init_some_inv xs ys d hd
      have hlo2 : -((xs.length : Nat) : Int) ≤ i := hlo
      have hb : (i + (xs.length : Int)).toNat < xs.length := by omega
      have hby : (i + (xs.length : Int)).toNat < ys.length := by omega
      have hloy : -((ys.length : Nat) : Int) ≤ i := by omega
      have hby2 : (i + (ys.length : Int)).toNat < ys.length := by omega
      have hy := tensorGet_neg ys i hloy (by omega) hby2
      have hidx : (i + (ys.length : Int)).toNat = (i + (xs.length : Int)).toNat := by omega
      simp only [hidx] at hy
      refine ⟨xs[(i + (xs.length : Int)).toNat], ys[(i + (xs.length : Int)).toNat],
        ?_, List.getElem?_eq_getElem hb, List.getElem?_eq_getElem hby⟩
      simp only [MamoDataset.getitem, tensorGet_neg xs i hlo2 (by omega) hb, hy]

/-- Witness for C9: index `-1` on the table from `inputs = [3, 4]`,
`outputs = [7, 8]`. -/
theorem mamo_C9_witness :
    MamoDataset.init (some ([3, 4] : List Int)) (some [7, 8]) =
      .ok (MamoDataset.mk [3, 4] (some [7, 8])) ∧
    -((MamoDataset.len (MamoDataset.mk ([3, 4] : List Int) (some [7, 8])) : Nat) : Int) ≤ -1 ∧
    (-1 : Int) ≤ -1 ∧
    (∃ x y, (MamoDataset.mk ([3, 4] : List Int) (some [7, 8])).getitem (-1) = .ok (x, y) ∧
      ([3, 4] : List Int)[((-1 : Int) + (([3, 4] : List Int).length : Int)).toNat]? = some x ∧
      (match (some ([7, 8] : List Int)) with
        | none => y = x
        | some ys =>
            ys[((-1 : Int) + (([3, 4] : List Int).length : Int)).toNat]? = some y)) :=
  ⟨rfl, by decide, by decide,
    mamo_C9_negative_wraparound Int [3, 4] (some [7, 8])
      (MamoDataset.mk [3, 4] (some [7, 8])) rfl (-1) (by decide) (by decide)⟩

/-- C10: construction from an empty non-absent input sequence succeeds, the
table has size 0, and every integer lookup on it raises `IndexError`. -/
theorem mamo_C10_empty_inputs (α : Type) :
    MamoDataset.init (some ([] : List α)) none = .ok (MamoDataset.mk [] none) ∧
    MamoDataset.len (MamoDataset.mk ([] : List α) none) = 0 ∧
    ∀ i : Int, (MamoDataset.mk ([] : List α) none).getitem i = .error .indexError := by
  refine ⟨rfl, rfl, fun i => ?_⟩
  simp only [MamoDataset.getitem,
    tensorGet_oob ([] : List α) i (by rw [List.length_nil]; omega)]
